import Mathlib

/-!
Verification of the riscemu execution engine (user-mode RV32I emulator).

The definitions below are a shallow embedding of the Python sources:
`riscemu/CPU.py` (`UserModeCPU.step`, `UserModeCPU.setup_stack`),
`riscemu/instructions/RV32I.py` (the instruction handlers) and
`riscemu/types/exceptions.py` (the assertion helpers and fault classes).
Leaf modules that are not part of the excerpt (the `Int32`/`UInt32` word
type, the MMU, the register file, the instruction-set parse helpers and
the debugger hook) are modelled from the specification, as marked in the
individual doc comments.
-/

namespace Riscemu

/-- Word size of the machine: all register and memory values live below 2^32. -/
def wsize : Nat := 4294967296

/-- Modelled from the spec: the `Int32` word type (not under src/) keeps one
32-bit pattern with a signed two's-complement projection.  `toSigned` is the
signed view of a stored word. -/
def toSigned (w : Nat) : Int :=
  if w < 2147483648 then (w : Int) else (w : Int) - 4294967296

/-- Modelled from the spec: conversion of an arbitrary integer back into the
stored 32-bit pattern; all arithmetic wraps modulo 2^32. -/
def ofInt (i : Int) : Nat := (i % 4294967296).toNat

/-- Modelled from the spec: wrap-around addition of two words. -/
def wadd (a b : Nat) : Nat := (a + b) % wsize

/-- Modelled from the spec: wrap-around subtraction of two words. -/
def wsub (a b : Nat) : Nat := ofInt ((a : Int) - (b : Int))

/-- Modelled from the spec: logical shift left; the shift amount is masked to
its low 5 bits (shift distance modulo 32) inside the word type. -/
def wshl (a s : Nat) : Nat := (a <<< (s % 32)) % wsize

/-- Modelled from the spec: logical shift right (unsigned view, fills with 0);
the shift amount is masked to its low 5 bits. -/
def wshrl (a s : Nat) : Nat := a >>> (s % 32)

/-- Modelled from the spec: arithmetic shift right (signed view, fills with the
sign bit), i.e. flooring division of the signed projection by 2^s; the shift
amount is masked to its low 5 bits. -/
def wshra (a s : Nat) : Nat := ofInt (Int.fdiv (toSigned a) ((2 : Int) ^ (s % 32)))

/-- Modelled from the spec: sign extension of a value of `bits` bits up to the
full 32-bit width. -/
def signExtend (v : Nat) (bits : Nat) : Nat :=
  if v % 2 ^ bits < 2 ^ (bits - 1) then v % 2 ^ bits
  else v % 2 ^ bits + (wsize - 2 ^ bits)

/-- Modelled from the spec: little-endian decoding of a byte sequence. -/
def fromBytesLE (bs : List Nat) : Nat := bs.foldr (fun b acc => b % 256 + 256 * acc) 0

/-- Modelled from the spec: little-endian encoding of a word into `n` bytes
(truncating to the low `n` bytes, as `Int32.to_bytes` does). -/
def toBytesLE (n v : Nat) : List Nat := (List.range n).map (fun i => v / 256 ^ i % 256)

/-- The fault taxonomy of `riscemu/types/exceptions.py`.  `stackOverflow`
stands for the `StackOverflowException` imported by `CPU.py` (its class body
is not in the excerpt); `launchDebugger` is the non-error debug-trap signal
`LaunchDebuggerException`. -/
inductive Fault where
  | parseEx (msg : String)
  | memoryAccess (op : String) (addr : Nat) (size : Nat)
  | memoryAlignment (addr : Nat)
  | outOfMemory
  | stackOverflow
  | unimplementedInstruction (name : String)
  | invalidSyscall
  | launchDebugger
deriving DecidableEq

/-- An instruction operand: a register reference or an immediate, as produced
by the external parser (spec section 3, "Instruction"). -/
inductive Operand where
  | reg (name : String)
  | imm (val : Int)
deriving DecidableEq

/-- A decoded instruction: mnemonic plus ordered operand list. -/
structure Instruction where
  name : String
  args : List Operand
deriving DecidableEq

/-- Modelled from the spec: `Instruction.get_reg(i)` of the missing types
module returns the i-th operand, which must be a register reference;
anything else is a parse-class fault (decoding is lazy per handler). -/
def Instruction.get_reg (ins : Instruction) (i : Nat) : Except Fault String :=
  match ins.args[i]? with
  | some (Operand.reg n) => Except.ok n
  | _ => Except.error (Fault.parseEx "expected register operand")

/-- Modelled from the spec: `Instruction.get_imm(i)` returns the i-th operand,
which must be an immediate value. -/
def Instruction.get_imm (ins : Instruction) (i : Nat) : Except Fault Int :=
  match ins.args[i]? with
  | some (Operand.imm v) => Except.ok v
  | _ => Except.error (Fault.parseEx "expected immediate operand")

/-- Embeds `ASSERT_LEN` from `types/exceptions.py`: arity check on the operand list. -/
def ASSERT_LEN (args : List Operand) (n : Nat) : Except Fault Unit :=
  if args.length ≠ n then Except.error (Fault.parseEx "ASSERTION_FAILED: length")
  else Except.ok ()

/-- Embeds `ASSERT_WORD_ALIGNED` from `types/exceptions.py`: a word access address
must be a multiple of 4, otherwise a `MemoryAlignmentException` is raised. -/
def ASSERT_WORD_ALIGNED (addr : Nat) : Except Fault Unit :=
  if addr % 4 ≠ 0 then Except.error (Fault.memoryAlignment addr) else Except.ok ()

/-- Embeds `ASSERT_IMM_LEN` from `types/exceptions.py`: range check of an immediate
against an `nbits`-wide signed or unsigned encoding. -/
def ASSERT_IMM_LEN (val : Int) (nbits : Nat) (signed : Bool) : Except Fault Unit :=
  if signed = false then
    if val > 2 ^ nbits - 1 ∨ val < 0 then
      Except.error (Fault.parseEx "IMMEDIATE OUT OF RANGE FOR UNSIGNED")
    else Except.ok ()
  else
    if val > 2 ^ (nbits - 1) - 1 then
      if -(2 ^ nbits - val) > 2 ^ (nbits - 1) - 1 ∨ -(2 ^ nbits - val) < -(2 ^ (nbits - 1)) then
        Except.error (Fault.parseEx "IMMEDIATE OUT OF RANGE FOR SIGNED")
      else Except.ok ()
    else
      if val > 2 ^ (nbits - 1) - 1 ∨ val < -(2 ^ (nbits - 1)) then
        Except.error (Fault.parseEx "IMMEDIATE OUT OF RANGE FOR SIGNED")
      else Except.ok ()

/-- Modelled from the spec: the register file (not under src/) maps register
names to words. -/
def Regs : Type := String → Nat

/-- Modelled from the spec: reading a register; the hard-wired zero register
always yields zero. -/
def Regs.get (r : Regs) (name : String) : Nat :=
  if name = "zero" then 0 else r name

/-- Modelled from the spec: writing a register; the zero register discards
writes, every other register is updated. -/
def Regs.set (r : Regs) (name : String) (v : Nat) : Regs :=
  if name = "zero" then r else fun n => if n = name then v else r n

/-- A memory section: name, base address, size and backing bytes
(spec section 3, "Memory Section"). -/
structure MemorySection where
  name : String
  base : Nat
  size : Nat
  data : List Nat
deriving DecidableEq

/-- Two sections overlap when their address ranges intersect. -/
def sectionsOverlap (a b : MemorySection) : Bool :=
  decide (a.base < b.base + b.size) && decide (b.base < a.base + a.size)

/-- Modelled from the spec: the address space is an ordered collection of
placed sections; instruction-bearing memory is kept as a map from addresses
to decoded instructions, since `read_instruction` returns decoded
instructions rather than raw bytes. -/
structure MMUState where
  sections : List MemorySection
  program : List (Nat × Instruction)
deriving DecidableEq

/-- Whether a section contains the full range `[addr, addr + n)`. -/
def sectionContains (sec : MemorySection) (addr n : Nat) : Bool :=
  decide (sec.base ≤ addr) && decide (addr + n ≤ sec.base + sec.size)

/-- Resolve an address range to the section containing it (spec 4.2: every
address must resolve to a section or the access faults). -/
def findSectionFor (secs : List MemorySection) (addr n : Nat) : Option MemorySection :=
  secs.find? (fun s => sectionContains s addr n)

/-- Modelled from the spec: `MMU.read(addr, width)`; raises a memory-access
fault when no section contains the full requested range, and is otherwise a
byte-granular little-endian read (no alignment check in the MMU itself). -/
def mmuRead (mmu : MMUState) (addr n : Nat) : Except Fault Nat :=
  match findSectionFor mmu.sections addr n with
  | none => Except.error (Fault.memoryAccess "read" addr n)
  | some s => Except.ok (fromBytesLE ((List.range n).map (fun i => s.data.getD (addr - s.base + i) 0)))

/-- Overlay `bytes` onto `data` starting at `off`. -/
def writeBytes (data : List Nat) (off : Nat) (bytes : List Nat) : List Nat :=
  (List.range data.length).map
    (fun i => if off ≤ i ∧ i < off + bytes.length then bytes.getD (i - off) 0 else data.getD i 0)

/-- Modelled from the spec: `MMU.write(addr, width, bytes)`; faults when no
section contains the range, otherwise overwrites the bytes in place. -/
def mmuWrite (mmu : MMUState) (addr n : Nat) (bytes : List Nat) : Except Fault MMUState :=
  match findSectionFor mmu.sections addr n with
  | none => Except.error (Fault.memoryAccess "write" addr n)
  | some s =>
    Except.ok { mmu with
      sections := mmu.sections.map
        (fun t => if t = s then { t with data := writeBytes t.data (addr - t.base) bytes } else t) }

/-- Modelled from the spec: `MMU.read_ins(addr)` resolves like `read` and
returns the decoded instruction at the address; a fetch outside
instruction-bearing memory is a memory-access fault. -/
def readIns (mmu : MMUState) (addr : Nat) : Except Fault Instruction :=
  match mmu.program.find? (fun p => p.1 = addr) with
  | some p => Except.ok p.2
  | none => Except.error (Fault.memoryAccess "fetch" addr 1)

/-- The next free address above all existing sections, used for relocatable
placement (spec 4.2). -/
def nextFreeAddress (secs : List MemorySection) : Nat :=
  secs.foldl (fun acc s => max acc (s.base + s.size)) 0

/-- Modelled from the spec: `MMU.load_section(sec, fixed_position)`.  A fixed
section is placed at its declared base and the call fails (returns `none`,
no fault) if it would overlap an existing section; a relocatable section is
placed at the next free address above all existing sections. -/
def load_section (mmu : MMUState) (sec : MemorySection) (fixed_position : Bool) :
    Option (MMUState × Nat) :=
  if fixed_position then
    if mmu.sections.any (fun t => sectionsOverlap t sec) then none
    else some ({ mmu with sections := mmu.sections ++ [sec] }, sec.base)
  else
    if mmu.sections.any
        (fun t => sectionsOverlap t { sec with base := nextFreeAddress mmu.sections }) then
      none
    else
      some ({ mmu with
              sections := mmu.sections ++ [{ sec with base := nextFreeAddress mmu.sections }] },
        nextFreeAddress mmu.sections)

/-- The state owned by `UserModeCPU`: register file, program counter, cycle
counter, halted flag, debugger-attached flag, the configured stack size
(`conf.stack_size`), the exit code and the address space. -/
structure Machine where
  regs : Regs
  pc : Nat
  cycle : Nat
  halted : Bool
  debugger_active : Bool
  stack_size : Int
  exit_code : Int
  mmu : MMUState

/-- Write a register of a machine. -/
def setReg (m : Machine) (name : String) (v : Nat) : Machine :=
  { m with regs := Regs.set m.regs name v }

/-- Modelled from the spec: `INS_XLEN`, the fixed instruction width of the
missing base CPU class.  Instructions occupy one address unit each: the
`sbreak` handler in src prints `self.pc - 1` as the address of the current
instruction, fixing the increment at 1. -/
def INS_XLEN : Nat := 1

/-- Modelled from the spec: `parse_mem_ins` of the missing instruction-set
base class.  Per the format strings in the src `lw`/`sw` handlers, operand 0
is the destination/source register, operand 1 the base register and operand 2
the immediate offset; the effective address is base register + offset,
wrapped to a word. -/
def parse_mem_ins (m : Machine) (ins : Instruction) : Except Fault (String × Nat) :=
  match ins.get_reg 0 with
  | Except.error f => Except.error f
  | Except.ok rd =>
    match ins.get_reg 1 with
    | Except.error f => Except.error f
    | Except.ok rs =>
      match ins.get_imm 2 with
      | Except.error f => Except.error f
      | Except.ok imm => Except.ok (rd, ofInt ((Regs.get m.regs rs : Int) + imm))

/-- Modelled from the spec: `parse_rd_rs_rs` returns the destination register
name and the word values of the two source registers (the `signed` flag of
the Python helper only selects the signed or unsigned projection used by the
caller's comparison, which the handlers below apply explicitly). -/
def parse_rd_rs_rs (m : Machine) (ins : Instruction) : Except Fault (String × Nat × Nat) :=
  match ins.get_reg 0 with
  | Except.error f => Except.error f
  | Except.ok rd =>
    match ins.get_reg 1 with
    | Except.error f => Except.error f
    | Except.ok r1 =>
      match ins.get_reg 2 with
      | Except.error f => Except.error f
      | Except.ok r2 => Except.ok (rd, Regs.get m.regs r1, Regs.get m.regs r2)

/-- Modelled from the spec: `parse_rd_rs_imm` returns the destination register
name, the word value of the source register and the immediate as a word. -/
def parse_rd_rs_imm (m : Machine) (ins : Instruction) : Except Fault (String × Nat × Nat) :=
  match ins.get_reg 0 with
  | Except.error f => Except.error f
  | Except.ok rd =>
    match ins.get_reg 1 with
    | Except.error f => Except.error f
    | Except.ok r1 =>
      match ins.get_imm 2 with
      | Except.error f => Except.error f
      | Except.ok imm => Except.ok (rd, Regs.get m.regs r1, ofInt imm)

/-- Modelled from the spec: `parse_rs_rs_imm` returns the word values of the
two source registers and the branch target immediate as a word (the branch
handlers use `dst.unsigned_value`). -/
def parse_rs_rs_imm (m : Machine) (ins : Instruction) : Except Fault (Nat × Nat × Nat) :=
  match ins.get_reg 0 with
  | Except.error f => Except.error f
  | Except.ok r1 =>
    match ins.get_reg 1 with
    | Except.error f => Except.error f
    | Except.ok r2 =>
      match ins.get_imm 2 with
      | Except.error f => Except.error f
      | Except.ok imm => Except.ok (Regs.get m.regs r1, Regs.get m.regs r2, ofInt imm)

/-- Embeds `RV32I.instruction_lb`: load byte, sign-extended from 8 bits. -/
def instruction_lb (m : Machine) (ins : Instruction) : Except Fault Machine :=
  match parse_mem_ins m ins with
  | Except.error f => Except.error f
  | Except.ok (rd, addr) =>
    match mmuRead m.mmu addr 1 with
    | Except.error f => Except.error f
    | Except.ok v => Except.ok (setReg m rd (signExtend v 8))

/-- Embeds `RV32I.instruction_lh`: load halfword, sign-extended from 16 bits. -/
def instruction_lh (m : Machine) (ins : Instruction) : Except Fault Machine :=
  match parse_mem_ins m ins with
  | Except.error f => Except.error f
  | Except.ok (rd, addr) =>
    match mmuRead m.mmu addr 2 with
    | Except.error f => Except.error f
    | Except.ok v => Except.ok (setReg m rd (signExtend v 16))

/-- Embeds `RV32I.instruction_lw`: arity check, effective-address computation,
word-alignment assertion, then a plain 32-bit load. -/
def instruction_lw (m : Machine) (ins : Instruction) : Except Fault Machine :=
  match ASSERT_LEN ins.args 3 with
  | Except.error f => Except.error f
  | Except.ok _ =>
    match parse_mem_ins m ins with
    | Except.error f => Except.error f
    | Except.ok (rd, addr) =>
      match ASSERT_WORD_ALIGNED addr with
      | Except.error f => Except.error f
      | Except.ok _ =>
        match mmuRead m.mmu addr 4 with
        | Except.error f => Except.error f
        | Except.ok v => Except.ok (setReg m rd v)

/-- Embeds `RV32I.instruction_lbu`: load byte, zero-extended. -/
def instruction_lbu (m : Machine) (ins : Instruction) : Except Fault Machine :=
  match parse_mem_ins m ins with
  | Except.error f => Except.error f
  | Except.ok (rd, addr) =>
    match mmuRead m.mmu addr 1 with
    | Except.error f => Except.error f
    | Except.ok v => Except.ok (setReg m rd v)

/-- Embeds `RV32I.instruction_lhu`: load halfword, zero-extended. -/
def instruction_lhu (m : Machine) (ins : Instruction) : Except Fault Machine :=
  match parse_mem_ins m ins with
  | Except.error f => Except.error f
  | Except.ok (rd, addr) =>
    match mmuRead m.mmu addr 2 with
    | Except.error f => Except.error f
    | Except.ok v => Except.ok (setReg m rd v)

/-- Embeds `RV32I.instruction_sb`: store the low byte of the source register. -/
def instruction_sb (m : Machine) (ins : Instruction) : Except Fault Machine :=
  match parse_mem_ins m ins with
  | Except.error f => Except.error f
  | Except.ok (rd, addr) =>
    match mmuWrite m.mmu addr 1 (toBytesLE 1 (Regs.get m.regs rd)) with
    | Except.error f => Except.error f
    | Except.ok mmu => Except.ok { m with mmu := mmu }

/-- Embeds `RV32I.instruction_sh`: store the low halfword of the source register. -/
def instruction_sh (m : Machine) (ins : Instruction) : Except Fault Machine :=
  match parse_mem_ins m ins with
  | Except.error f => Except.error f
  | Except.ok (rd, addr) =>
    match mmuWrite m.mmu addr 2 (toBytesLE 2 (Regs.get m.regs rd)) with
    | Except.error f => Except.error f
    | Except.ok mmu => Except.ok { m with mmu := mmu }

/-- Embeds `RV32I.instruction_sw`: arity check, effective-address computation,
word-alignment assertion, then a 4-byte store. -/
def instruction_sw (m : Machine) (ins : Instruction) : Except Fault Machine :=
  match ASSERT_LEN ins.args 3 with
  | Except.error f => Except.error f
  | Except.ok _ =>
    match parse_mem_ins m ins with
    | Except.error f => Except.error f
    | Except.ok (rd, addr) =>
      match ASSERT_WORD_ALIGNED addr with
      | Except.error f => Except.error f
      | Except.ok _ =>
        match mmuWrite m.mmu addr 4 (toBytesLE 4 (Regs.get m.regs rd)) with
        | Except.error f => Except.error f
        | Except.ok mmu => Except.ok { m with mmu := mmu }

/-- Embeds `RV32I.instruction_sll`: the register shift amount is masked with
`& 0b11111` before shifting. -/
def instruction_sll (m : Machine) (ins : Instruction) : Except Fault Machine :=
  match ASSERT_LEN ins.args 3 with
  | Except.error f => Except.error f
  | Except.ok _ =>
    match ins.get_reg 0 with
    | Except.error f => Except.error f
    | Except.ok dst =>
      match ins.get_reg 1 with
      | Except.error f => Except.error f
      | Except.ok src1 =>
        match ins.get_reg 2 with
        | Except.error f => Except.error f
        | Except.ok src2 =>
          Except.ok (setReg m dst (wshl (Regs.get m.regs src1) (Regs.get m.regs src2 &&& 31)))

/-- Embeds `RV32I.instruction_slli`: the immediate shift amount is masked with
`& 0b11111`; on Python's arbitrary-precision two's-complement integers
`imm & 31` equals the floor-modulus `imm % 32`, which is how the mask on an
integer immediate is embedded here. -/
def instruction_slli (m : Machine) (ins : Instruction) : Except Fault Machine :=
  match ASSERT_LEN ins.args 3 with
  | Except.error f => Except.error f
  | Except.ok _ =>
    match ins.get_reg 0 with
    | Except.error f => Except.error f
    | Except.ok dst =>
      match ins.get_reg 1 with
      | Except.error f => Except.error f
      | Except.ok src1 =>
        match ins.get_imm 2 with
        | Except.error f => Except.error f
        | Except.ok imm =>
          Except.ok (setReg m dst (wshl (Regs.get m.regs src1) (imm % 32).toNat))

/-- Embeds `RV32I.instruction_srl`: logical right shift, register shift amount
masked with `& 0b11111`. -/
def instruction_srl (m : Machine) (ins : Instruction) : Except Fault Machine :=
  match ASSERT_LEN ins.args 3 with
  | Except.error f => Except.error f
  | Except.ok _ =>
    match ins.get_reg 0 with
    | Except.error f => Except.error f
    | Except.ok dst =>
      match ins.get_reg 1 with
      | Except.error f => Except.error f
      | Except.ok src1 =>
        match ins.get_reg 2 with
        | Except.error f => Except.error f
        | Except.ok src2 =>
          Except.ok (setReg m dst (wshrl (Regs.get m.regs src1) (Regs.get m.regs src2 &&& 31)))

/-- Embeds `RV32I.instruction_srli`: logical right shift by a masked immediate. -/
def instruction_srli (m : Machine) (ins : Instruction) : Except Fault Machine :=
  match ASSERT_LEN ins.args 3 with
  | Except.error f => Except.error f
  | Except.ok _ =>
    match ins.get_reg 0 with
    | Except.error f => Except.error f
    | Except.ok dst =>
      match ins.get_reg 1 with
      | Except.error f => Except.error f
      | Except.ok src1 =>
        match ins.get_imm 2 with
        | Except.error f => Except.error f
        | Except.ok imm =>
          Except.ok (setReg m dst (wshrl (Regs.get m.regs src1) (imm % 32).toNat))

/-- Embeds `RV32I.instruction_sra`: arithmetic right shift, register shift amount
masked with `& 0b11111`. -/
def instruction_sra (m : Machine) (ins : Instruction) : Except Fault Machine :=
  match ASSERT_LEN ins.args 3 with
  | Except.error f => Except.error f
  | Except.ok _ =>
    match ins.get_reg 0 with
    | Except.error f => Except.error f
    | Except.ok dst =>
      match ins.get_reg 1 with
      | Except.error f => Except.error f
      | Except.ok src1 =>
        match ins.get_reg 2 with
        | Except.error f => Except.error f
        | Except.ok src2 =>
          Except.ok (setReg m dst (wshra (Regs.get m.regs src1) (Regs.get m.regs src2 &&& 31)))

/-- Embeds `RV32I.instruction_srai`: arithmetic right shift by a masked immediate. -/
def instruction_srai (m : Machine) (ins : Instruction) : Except Fault Machine :=
  match ASSERT_LEN ins.args 3 with
  | Except.error f => Except.error f
  | Except.ok _ =>
    match ins.get_reg 0 with
    | Except.error f => Except.error f
    | Except.ok dst =>
      match ins.get_reg 1 with
      | Except.error f => Except.error f
      | Except.ok src1 =>
        match ins.get_imm 2 with
        | Except.error f => Except.error f
        | Except.ok imm =>
          Except.ok (setReg m dst (wshra (Regs.get m.regs src1) (imm % 32).toNat))

/-- Embeds `RV32I.instruction_add`: wrap-around addition. -/
def instruction_add (m : Machine) (ins : Instruction) : Except Fault Machine :=
  match ASSERT_LEN ins.args 3 with
  | Except.error f => Except.error f
  | Except.ok _ =>
    match parse_rd_rs_rs m ins with
    | Except.error f => Except.error f
    | Except.ok (dst, rs1, rs2) => Except.ok (setReg m dst (wadd rs1 rs2))

/-- Embeds `RV32I.instruction_addi`: wrap-around addition of an immediate. -/
def instruction_addi (m : Machine) (ins : Instruction) : Except Fault Machine :=
  match ASSERT_LEN ins.args 3 with
  | Except.error f => Except.error f
  | Except.ok _ =>
    match parse_rd_rs_imm m ins with
    | Except.error f => Except.error f
    | Except.ok (dst, rs1, imm) => Except.ok (setReg m dst (wadd rs1 imm))

/-- Embeds `RV32I.instruction_sub`: wrap-around subtraction. -/
def instruction_sub (m : Machine) (ins : Instruction) : Except Fault Machine :=
  match ASSERT_LEN ins.args 3 with
  | Except.error f => Except.error f
  | Except.ok _ =>
    match parse_rd_rs_rs m ins with
    | Except.error f => Except.error f
    | Except.ok (dst, rs1, rs2) => Except.ok (setReg m dst (wsub rs1 rs2))

/-- Embeds `RV32I.instruction_lui`: range-checks the 20-bit immediate, then loads it
shifted left by 12 bits. -/
def instruction_lui (m : Machine) (ins : Instruction) : Except Fault Machine :=
  match ASSERT_LEN ins.args 2 with
  | Except.error f => Except.error f
  | Except.ok _ =>
    match ins.get_imm 1 with
    | Except.error f => Except.error f
    | Except.ok imm =>
      match ASSERT_IMM_LEN imm 20 false with
      | Except.error f => Except.error f
      | Except.ok _ =>
        match ins.get_reg 0 with
        | Except.error f => Except.error f
        | Except.ok reg => Except.ok (setReg m reg (ofInt (imm * 4096)))

/-- Embeds `RV32I.instruction_auipc`: immediate shifted left 12 bits, added to the
current program counter with wrap-around. -/
def instruction_auipc (m : Machine) (ins : Instruction) : Except Fault Machine :=
  match ASSERT_LEN ins.args 2 with
  | Except.error f => Except.error f
  | Except.ok _ =>
    match ins.get_reg 0 with
    | Except.error f => Except.error f
    | Except.ok reg =>
      match ins.get_imm 1 with
      | Except.error f => Except.error f
      | Except.ok imm =>
        Except.ok (setReg m reg (ofInt (toSigned (ofInt (imm * 4096)) + (m.pc : Int))))

/-- Embeds `RV32I.instruction_xor`. -/
def instruction_xor (m : Machine) (ins : Instruction) : Except Fault Machine :=
  match ASSERT_LEN ins.args 3 with
  | Except.error f => Except.error f
  | Except.ok _ =>
    match parse_rd_rs_rs m ins with
    | Except.error f => Except.error f
    | Except.ok (rd, rs1, rs2) => Except.ok (setReg m rd (rs1 ^^^ rs2))

/-- Embeds `RV32I.instruction_xori`. -/
def instruction_xori (m : Machine) (ins : Instruction) : Except Fault Machine :=
  match ASSERT_LEN ins.args 3 with
  | Except.error f => Except.error f
  | Except.ok _ =>
    match parse_rd_rs_imm m ins with
    | Except.error f => Except.error f
    | Except.ok (rd, rs1, imm) => Except.ok (setReg m rd (rs1 ^^^ imm))

/-- Embeds `RV32I.instruction_or`. -/
def instruction_or (m : Machine) (ins : Instruction) : Except Fault Machine :=
  match ASSERT_LEN ins.args 3 with
  | Except.error f => Except.error f
  | Except.ok _ =>
    match parse_rd_rs_rs m ins with
    | Except.error f => Except.error f
    | Except.ok (rd, rs1, rs2) => Except.ok (setReg m rd (rs1 ||| rs2))

/-- Embeds `RV32I.instruction_ori`. -/
def instruction_ori (m : Machine) (ins : Instruction) : Except Fault Machine :=
  match ASSERT_LEN ins.args 3 with
  | Except.error f => Except.error f
  | Except.ok _ =>
    match parse_rd_rs_imm m ins with
    | Except.error f => Except.error f
    | Except.ok (rd, rs1, imm) => Except.ok (setReg m rd (rs1 ||| imm))

/-- Embeds `RV32I.instruction_and`. -/
def instruction_and (m : Machine) (ins : Instruction) : Except Fault Machine :=
  match ASSERT_LEN ins.args 3 with
  | Except.error f => Except.error f
  | Except.ok _ =>
    match parse_rd_rs_rs m ins with
    | Except.error f => Except.error f
    | Except.ok (rd, rs1, rs2) => Except.ok (setReg m rd (rs1 &&& rs2))

/-- Embeds `RV32I.instruction_andi`. -/
def instruction_andi (m : Machine) (ins : Instruction) : Except Fault Machine :=
  match ASSERT_LEN ins.args 3 with
  | Except.error f => Except.error f
  | Except.ok _ =>
    match parse_rd_rs_imm m ins with
    | Except.error f => Except.error f
    | Except.ok (rd, rs1, imm) => Except.ok (setReg m rd (rs1 &&& imm))

/-- Embeds `RV32I.instruction_slt`: signed comparison (the parse helper is called
with its default `signed=True`). -/
def instruction_slt (m : Machine) (ins : Instruction) : Except Fault Machine :=
  match ASSERT_LEN ins.args 3 with
  | Except.error f => Except.error f
  | Except.ok _ =>
    match parse_rd_rs_rs m ins with
    | Except.error f => Except.error f
    | Except.ok (rd, rs1, rs2) =>
      Except.ok (setReg m rd (if toSigned rs1 < toSigned rs2 then 1 else 0))

/-- Embeds `RV32I.instruction_slti`: signed comparison against the immediate. -/
def instruction_slti (m : Machine) (ins : Instruction) : Except Fault Machine :=
  match ASSERT_LEN ins.args 3 with
  | Except.error f => Except.error f
  | Except.ok _ =>
    match parse_rd_rs_imm m ins with
    | Except.error f => Except.error f
    | Except.ok (rd, rs1, imm) =>
      Except.ok (setReg m rd (if toSigned rs1 < toSigned imm then 1 else 0))

/-- Embeds `RV32I.instruction_sltu`: unsigned comparison (`signed=False`). -/
def instruction_sltu (m : Machine) (ins : Instruction) : Except Fault Machine :=
  match ASSERT_LEN ins.args 3 with
  | Except.error f => Except.error f
  | Except.ok _ =>
    match parse_rd_rs_rs m ins with
    | Except.error f => Except.error f
    | Except.ok (dst, rs1, rs2) => Except.ok (setReg m dst (if rs1 < rs2 then 1 else 0))

/-- Embeds `RV32I.instruction_sltiu`: unsigned comparison against the immediate. -/
def instruction_sltiu (m : Machine) (ins : Instruction) : Except Fault Machine :=
  match ASSERT_LEN ins.args 3 with
  | Except.error f => Except.error f
  | Except.ok _ =>
    match parse_rd_rs_imm m ins with
    | Except.error f => Except.error f
    | Except.ok (dst, rs1, imm) => Except.ok (setReg m dst (if rs1 < imm then 1 else 0))

/-- Embeds `RV32I.instruction_beq`. -/
def instruction_beq (m : Machine) (ins : Instruction) : Except Fault Machine :=
  match ASSERT_LEN ins.args 3 with
  | Except.error f => Except.error f
  | Except.ok _ =>
    match parse_rs_rs_imm m ins with
    | Except.error f => Except.error f
    | Except.ok (rs1, rs2, dst) =>
      Except.ok (if rs1 = rs2 then { m with pc := dst } else m)

/-- Embeds `RV32I.instruction_bne`. -/
def instruction_bne (m : Machine) (ins : Instruction) : Except Fault Machine :=
  match ASSERT_LEN ins.args 3 with
  | Except.error f => Except.error f
  | Except.ok _ =>
    match parse_rs_rs_imm m ins with
    | Except.error f => Except.error f
    | Except.ok (rs1, rs2, dst) =>
      Except.ok (if rs1 ≠ rs2 then { m with pc := dst } else m)

/-- Embeds `RV32I.instruction_blt`: signed comparison. -/
def instruction_blt (m : Machine) (ins : Instruction) : Except Fault Machine :=
  match ASSERT_LEN ins.args 3 with
  | Except.error f => Except.error f
  | Except.ok _ =>
    match parse_rs_rs_imm m ins with
    | Except.error f => Except.error f
    | Except.ok (rs1, rs2, dst) =>
      Except.ok (if toSigned rs1 < toSigned rs2 then { m with pc := dst } else m)

/-- Embeds `RV32I.instruction_bge`: signed comparison. -/
def instruction_bge (m : Machine) (ins : Instruction) : Except Fault Machine :=
  match ASSERT_LEN ins.args 3 with
  | Except.error f => Except.error f
  | Except.ok _ =>
    match parse_rs_rs_imm m ins with
    | Except.error f => Except.error f
    | Except.ok (rs1, rs2, dst) =>
      Except.ok (if toSigned rs1 ≥ toSigned rs2 then { m with pc := dst } else m)

/-- Embeds `RV32I.instruction_bltu`: unsigned comparison (`signed=False`). -/
def instruction_bltu (m : Machine) (ins : Instruction) : Except Fault Machine :=
  match ASSERT_LEN ins.args 3 with
  | Except.error f => Except.error f
  | Except.ok _ =>
    match parse_rs_rs_imm m ins with
    | Except.error f => Except.error f
    | Except.ok (rs1, rs2, dst) =>
      Except.ok (if rs1 < rs2 then { m with pc := dst } else m)

/-- Embeds `RV32I.instruction_bgeu`: unsigned comparison (`signed=False`). -/
def instruction_bgeu (m : Machine) (ins : Instruction) : Except Fault Machine :=
  match ASSERT_LEN ins.args 3 with
  | Except.error f => Except.error f
  | Except.ok _ =>
    match parse_rs_rs_imm m ins with
    | Except.error f => Except.error f
    | Except.ok (rs1, rs2, dst) =>
      Except.ok (if rs1 ≥ rs2 then { m with pc := dst } else m)

/-- Embeds `RV32I.instruction_j`: unconditional jump to the immediate address. -/
def instruction_j (m : Machine) (ins : Instruction) : Except Fault Machine :=
  match ASSERT_LEN ins.args 1 with
  | Except.error f => Except.error f
  | Except.ok _ =>
    match ins.get_imm 0 with
    | Except.error f => Except.error f
    | Except.ok addr => Except.ok { m with pc := ofInt addr }

/-- Embeds `RV32I.instruction_jal`: in the one-operand form the link register
defaults to `ra`; the link register receives the current (already
incremented) program counter before the jump. -/
def instruction_jal (m : Machine) (ins : Instruction) : Except Fault Machine :=
  if ins.args.length = 1 then
    match ins.get_imm 0 with
    | Except.error f => Except.error f
    | Except.ok addr => Except.ok { setReg m "ra" (m.pc % wsize) with pc := ofInt addr }
  else
    match ASSERT_LEN ins.args 2 with
    | Except.error f => Except.error f
    | Except.ok _ =>
      match ins.get_reg 0 with
      | Except.error f => Except.error f
      | Except.ok reg =>
        match ins.get_imm 1 with
        | Except.error f => Except.error f
        | Except.ok addr => Except.ok { setReg m reg (m.pc % wsize) with pc := ofInt addr }

/-- Embeds `RV32I.instruction_beqz`: branch when the signed register value is 0. -/
def instruction_beqz (m : Machine) (ins : Instruction) : Except Fault Machine :=
  match ASSERT_LEN ins.args 2 with
  | Except.error f => Except.error f
  | Except.ok _ =>
    match ins.get_reg 0 with
    | Except.error f => Except.error f
    | Except.ok rs1 =>
      match ins.get_imm 1 with
      | Except.error f => Except.error f
      | Except.ok dst =>
        Except.ok (if toSigned (Regs.get m.regs rs1) = 0 then { m with pc := ofInt dst } else m)

/-- Embeds `RV32I.instruction_bnez`. -/
def instruction_bnez (m : Machine) (ins : Instruction) : Except Fault Machine :=
  match ASSERT_LEN ins.args 2 with
  | Except.error f => Except.error f
  | Except.ok _ =>
    match ins.get_reg 0 with
    | Except.error f => Except.error f
    | Except.ok rs1 =>
      match ins.get_imm 1 with
      | Except.error f => Except.error f
      | Except.ok dst =>
        Except.ok (if toSigned (Regs.get m.regs rs1) ≠ 0 then { m with pc := ofInt dst } else m)

/-- Embeds `RV32I.instruction_bltz`. -/
def instruction_bltz (m : Machine) (ins : Instruction) : Except Fault Machine :=
  match ASSERT_LEN ins.args 2 with
  | Except.error f => Except.error f
  | Except.ok _ =>
    match ins.get_reg 0 with
    | Except.error f => Except.error f
    | Except.ok rs1 =>
      match ins.get_imm 1 with
      | Except.error f => Except.error f
      | Except.ok dst =>
        Except.ok (if toSigned (Regs.get m.regs rs1) < 0 then { m with pc := ofInt dst } else m)

/-- Embeds `RV32I.instruction_bgtz`. -/
def instruction_bgtz (m : Machine) (ins : Instruction) : Except Fault Machine :=
  match ASSERT_LEN ins.args 2 with
  | Except.error f => Except.error f
  | Except.ok _ =>
    match ins.get_reg 0 with
    | Except.error f => Except.error f
    | Except.ok rs1 =>
      match ins.get_imm 1 with
      | Except.error f => Except.error f
      | Except.ok dst =>
        Except.ok (if toSigned (Regs.get m.regs rs1) > 0 then { m with pc := ofInt dst } else m)

/-- Embeds `RV32I.instruction_bgez`. -/
def instruction_bgez (m : Machine) (ins : Instruction) : Except Fault Machine :=
  match ASSERT_LEN ins.args 2 with
  | Except.error f => Except.error f
  | Except.ok _ =>
    match ins.get_reg 0 with
    | Except.error f => Except.error f
    | Except.ok rs1 =>
      match ins.get_imm 1 with
      | Except.error f => Except.error f
      | Except.ok dst =>
        Except.ok (if toSigned (Regs.get m.regs rs1) ≥ 0 then { m with pc := ofInt dst } else m)

/-- Embeds `RV32I.instruction_blez`. -/
def instruction_blez (m : Machine) (ins : Instruction) : Except Fault Machine :=
  match ASSERT_LEN ins.args 2 with
  | Except.error f => Except.error f
  | Except.ok _ =>
    match ins.get_reg 0 with
    | Except.error f => Except.error f
    | Except.ok rs1 =>
      match ins.get_imm 1 with
      | Except.error f => Except.error f
      | Except.ok dst =>
        Except.ok (if toSigned (Regs.get m.regs rs1) ≤ 0 then { m with pc := ofInt dst } else m)

/-- Embeds `RV32I.instruction_bgt`: signed comparison, operands in source order. -/
def instruction_bgt (m : Machine) (ins : Instruction) : Except Fault Machine :=
  match ASSERT_LEN ins.args 3 with
  | Except.error f => Except.error f
  | Except.ok _ =>
    match parse_rs_rs_imm m ins with
    | Except.error f => Except.error f
    | Except.ok (rs1, rs2, dst) =>
      Except.ok (if toSigned rs1 > toSigned rs2 then { m with pc := dst } else m)

/-- Embeds `RV32I.instruction_ble`: signed comparison. -/
def instruction_ble (m : Machine) (ins : Instruction) : Except Fault Machine :=
  match ASSERT_LEN ins.args 3 with
  | Except.error f => Except.error f
  | Except.ok _ =>
    match parse_rs_rs_imm m ins with
    | Except.error f => Except.error f
    | Except.ok (rs1, rs2, dst) =>
      Except.ok (if toSigned rs1 ≤ toSigned rs2 then { m with pc := dst } else m)

/-- Embeds `RV32I.instruction_bgtu`: unsigned comparison (`signed=False`). -/
def instruction_bgtu (m : Machine) (ins : Instruction) : Except Fault Machine :=
  match ASSERT_LEN ins.args 3 with
  | Except.error f => Except.error f
  | Except.ok _ =>
    match parse_rs_rs_imm m ins with
    | Except.error f => Except.error f
    | Except.ok (rs1, rs2, dst) =>
      Except.ok (if rs1 > rs2 then { m with pc := dst } else m)

/-- Embeds `RV32I.instruction_bleu`: unsigned comparison (`signed=False`). -/
def instruction_bleu (m : Machine) (ins : Instruction) : Except Fault Machine :=
  match ASSERT_LEN ins.args 3 with
  | Except.error f => Except.error f
  | Except.ok _ =>
    match parse_rs_rs_imm m ins with
    | Except.error f => Except.error f
    | Except.ok (rs1, rs2, dst) =>
      Except.ok (if rs1 ≤ rs2 then { m with pc := dst } else m)

/-- Embeds `RV32I.instruction_call`: saves the incremented program counter into `ra`
then jumps to the immediate address. -/
def instruction_call (m : Machine) (ins : Instruction) : Except Fault Machine :=
  match ASSERT_LEN ins.args 1 with
  | Except.error f => Except.error f
  | Except.ok _ =>
    match ins.get_imm 0 with
    | Except.error f => Except.error f
    | Except.ok addr => Except.ok { setReg m "ra" (m.pc % wsize) with pc := ofInt addr }

/-- Embeds `RV32I.instruction_jr`: jumps to the register value with the low address
bit cleared (`val & 0xFFFFFFFE`). -/
def instruction_jr (m : Machine) (ins : Instruction) : Except Fault Machine :=
  match ASSERT_LEN ins.args 1 with
  | Except.error f => Except.error f
  | Except.ok _ =>
    match ins.get_reg 0 with
    | Except.error f => Except.error f
    | Except.ok reg =>
      Except.ok { m with pc := Regs.get m.regs reg &&& 4294967294 }

/-- Embeds `RV32I.instruction_jalr`: in the one-operand form the target is the plain
register value (the low-bit mask is commented out in the source); in the
register-plus-offset form the target comes from `parse_mem_ins` unmasked.
The link register receives the current (already incremented) program
counter. -/
def instruction_jalr (m : Machine) (ins : Instruction) : Except Fault Machine :=
  if ins.args.length = 1 then
    match ins.get_reg 0 with
    | Except.error f => Except.error f
    | Except.ok r =>
      Except.ok { setReg m "ra" (m.pc % wsize) with pc := Regs.get m.regs r }
  else
    match parse_mem_ins m ins with
    | Except.error f => Except.error f
    | Except.ok (reg, addr) =>
      Except.ok { setReg m reg (m.pc % wsize) with pc := addr }

/-- Embeds `RV32I.instruction_ret`: jumps to the value of `ra` (the source reads the
signed `.value` projection; as a program-counter bit pattern this is the
stored word). -/
def instruction_ret (m : Machine) (ins : Instruction) : Except Fault Machine :=
  match ASSERT_LEN ins.args 0 with
  | Except.error f => Except.error f
  | Except.ok _ => Except.ok { m with pc := Regs.get m.regs "ra" }

/-- Embeds `RV32I.instruction_scall`: arity check, then delegation to the syscall
bridge.  Modelled from the spec: the bridge's host-side effects (console,
exit) are an external collaborator outside the core (spec section 1); its
effect on the machine state is modelled as the identity here.  No claim in
this development depends on syscall behaviour. -/
def instruction_scall (m : Machine) (ins : Instruction) : Except Fault Machine :=
  match ASSERT_LEN ins.args 0 with
  | Except.error f => Except.error f
  | Except.ok _ => Except.ok m

/-- Embeds `RV32I.instruction_sbreak`: arity check, then the debug-trap signal
(`LaunchDebuggerException`) is raised. -/
def instruction_sbreak (m : Machine) (ins : Instruction) : Except Fault Machine :=
  match ASSERT_LEN ins.args 0 with
  | Except.error f => Except.error f
  | Except.ok _ => Except.error Fault.launchDebugger

/-- Embeds `RV32I.instruction_ecall` delegates to `instruction_scall`. -/
def instruction_ecall (m : Machine) (ins : Instruction) : Except Fault Machine :=
  instruction_scall m ins

/-- Embeds `RV32I.instruction_ebreak` delegates to `instruction_sbreak`. -/
def instruction_ebreak (m : Machine) (ins : Instruction) : Except Fault Machine :=
  instruction_sbreak m ins

/-- Embeds `RV32I.instruction_nop`: no effect. -/
def instruction_nop (m : Machine) (ins : Instruction) : Except Fault Machine :=
  match ASSERT_LEN ins.args 0 with
  | Except.error f => Except.error f
  | Except.ok _ => Except.ok m

/-- Embeds `RV32I.instruction_li`: load immediate. -/
def instruction_li (m : Machine) (ins : Instruction) : Except Fault Machine :=
  match ASSERT_LEN ins.args 2 with
  | Except.error f => Except.error f
  | Except.ok _ =>
    match ins.get_reg 0 with
    | Except.error f => Except.error f
    | Except.ok reg =>
      match ins.get_imm 1 with
      | Except.error f => Except.error f
      | Except.ok imm => Except.ok (setReg m reg (ofInt imm))

/-- Embeds `RV32I.instruction_la`: load address (same body as `li`). -/
def instruction_la (m : Machine) (ins : Instruction) : Except Fault Machine :=
  match ASSERT_LEN ins.args 2 with
  | Except.error f => Except.error f
  | Except.ok _ =>
    match ins.get_reg 0 with
    | Except.error f => Except.error f
    | Except.ok reg =>
      match ins.get_imm 1 with
      | Except.error f => Except.error f
      | Except.ok imm => Except.ok (setReg m reg (ofInt imm))

/-- Embeds `RV32I.instruction_mv`: register copy. -/
def instruction_mv (m : Machine) (ins : Instruction) : Except Fault Machine :=
  match ASSERT_LEN ins.args 2 with
  | Except.error f => Except.error f
  | Except.ok _ =>
    match ins.get_reg 0 with
    | Except.error f => Except.error f
    | Except.ok rd =>
      match ins.get_reg 1 with
      | Except.error f => Except.error f
      | Except.ok rs => Except.ok (setReg m rd (Regs.get m.regs rs))

/-- Embeds `RV32I.instruction_neg`: `0 - rs` with wrap-around. -/
def instruction_neg (m : Machine) (ins : Instruction) : Except Fault Machine :=
  match ASSERT_LEN ins.args 2 with
  | Except.error f => Except.error f
  | Except.ok _ =>
    match ins.get_reg 0 with
    | Except.error f => Except.error f
    | Except.ok rd =>
      match ins.get_reg 1 with
      | Except.error f => Except.error f
      | Except.ok rs => Except.ok (setReg m rd (wsub 0 (Regs.get m.regs rs)))

/-- Embeds `RV32I.instruction_not`: xor with `Int32(-1)`, i.e. with the all-ones
word. -/
def instruction_not (m : Machine) (ins : Instruction) : Except Fault Machine :=
  match ASSERT_LEN ins.args 2 with
  | Except.error f => Except.error f
  | Except.ok _ =>
    match ins.get_reg 0 with
    | Except.error f => Except.error f
    | Except.ok rd =>
      match ins.get_reg 1 with
      | Except.error f => Except.error f
      | Except.ok rs => Except.ok (setReg m rd (4294967295 ^^^ Regs.get m.regs rs))

/-- Embeds `RV32I.instruction_startlog`: no effect (external tooling marker). -/
def instruction_startlog (m : Machine) (ins : Instruction) : Except Fault Machine :=
  match ASSERT_LEN ins.args 0 with
  | Except.error f => Except.error f
  | Except.ok _ => Except.ok m

/-- Embeds `RV32I.instruction_stoplog`: no effect (external tooling marker). -/
def instruction_stoplog (m : Machine) (ins : Instruction) : Except Fault Machine :=
  match ASSERT_LEN ins.args 0 with
  | Except.error f => Except.error f
  | Except.ok _ => Except.ok m

/-- Embeds `RV32I.instruction_csbreak`: no effect (external debug marker). -/
def instruction_csbreak (m : Machine) (ins : Instruction) : Except Fault Machine :=
  match ASSERT_LEN ins.args 0 with
  | Except.error f => Except.error f
  | Except.ok _ => Except.ok m

/-- Modelled from the spec: dispatch by mnemonic to the handler of the same
name (the source resolves `instruction_<name>` reflectively; the base CPU
class is not under src/).  Unknown mnemonics raise an
unimplemented-instruction fault. -/
def run_instruction (m : Machine) (ins : Instruction) : Except Fault Machine :=
  match ins.name with
  | "lb" => instruction_lb m ins
  | "lh" => instruction_lh m ins
  | "lw" => instruction_lw m ins
  | "lbu" => instruction_lbu m ins
  | "lhu" => instruction_lhu m ins
  | "sb" => instruction_sb m ins
  | "sh" => instruction_sh m ins
  | "sw" => instruction_sw m ins
  | "sll" => instruction_sll m ins
  | "slli" => instruction_slli m ins
  | "srl" => instruction_srl m ins
  | "srli" => instruction_srli m ins
  | "sra" => instruction_sra m ins
  | "srai" => instruction_srai m ins
  | "add" => instruction_add m ins
  | "addi" => instruction_addi m ins
  | "sub" => instruction_sub m ins
  | "lui" => instruction_lui m ins
  | "auipc" => instruction_auipc m ins
  | "xor" => instruction_xor m ins
  | "xori" => instruction_xori m ins
  | "or" => instruction_or m ins
  | "ori" => instruction_ori m ins
  | "and" => instruction_and m ins
  | "andi" => instruction_andi m ins
  | "slt" => instruction_slt m ins
  | "slti" => instruction_slti m ins
  | "sltu" => instruction_sltu m ins
  | "sltiu" => instruction_sltiu m ins
  | "beq" => instruction_beq m ins
  | "bne" => instruction_bne m ins
  | "blt" => instruction_blt m ins
  | "bge" => instruction_bge m ins
  | "bltu" => instruction_bltu m ins
  | "bgeu" => instruction_bgeu m ins
  | "j" => instruction_j m ins
  | "jal" => instruction_jal m ins
  | "beqz" => instruction_beqz m ins
  | "bnez" => instruction_bnez m ins
  | "bltz" => instruction_bltz m ins
  | "bgtz" => instruction_bgtz m ins
  | "bgez" => instruction_bgez m ins
  | "blez" => instruction_blez m ins
  | "bgt" => instruction_bgt m ins
  | "ble" => instruction_ble m ins
  | "bgtu" => instruction_bgtu m ins
  | "bleu" => instruction_bleu m ins
  | "call" => instruction_call m ins
  | "jr" => instruction_jr m ins
  | "jalr" => instruction_jalr m ins
  | "ret" => instruction_ret m ins
  | "ecall" => instruction_ecall m ins
  | "ebreak" => instruction_ebreak m ins
  | "scall" => instruction_scall m ins
  | "sbreak" => instruction_sbreak m ins
  | "nop" => instruction_nop m ins
  | "li" => instruction_li m ins
  | "la" => instruction_la m ins
  | "mv" => instruction_mv m ins
  | "neg" => instruction_neg m ins
  | "not" => instruction_not m ins
  | "startlog" => instruction_startlog m ins
  | "stoplog" => instruction_stoplog m ins
  | "csbreak" => instruction_csbreak m ins
  | n => Except.error (Fault.unimplementedInstruction n)

/-- The observable outcome of one `UserModeCPU.step` call: no-op because
already halted, normal completion, a terminal fault (engine halted), the
transition to debug-suspended, or the re-raised debug trap propagating out
of `step`. -/
inductive StepOutcome where
  | noOp
  | ok
  | fault (f : Fault)
  | debugSuspend
  | debugPropagate
deriving DecidableEq

/-- Embeds `UserModeCPU.step`: no-op when halted; stack-pointer guard before the
cycle increment and instruction fetch; program counter advanced by
`INS_XLEN` before the handler runs; the debug-trap signal re-raises when a
debugger is active and otherwise suspends into the debugger (modelled from
the spec: `launch_debug_session` of the missing debug module attaches the
debugger); every other fault halts the engine. -/
def step (m : Machine) : Machine × StepOutcome :=
  if m.halted then (m, StepOutcome.noOp)
  else if toSigned (Regs.get m.regs "sp") < m.stack_size - 4096 then
    ({ m with halted := true }, StepOutcome.fault Fault.stackOverflow)
  else
    match readIns m.mmu m.pc with
    | Except.error f => ({ m with cycle := m.cycle + 1, halted := true }, StepOutcome.fault f)
    | Except.ok ins =>
      match run_instruction { m with cycle := m.cycle + 1, pc := m.pc + INS_XLEN } ins with
      | Except.ok m3 => (m3, StepOutcome.ok)
      | Except.error Fault.launchDebugger =>
        if m.debugger_active then
          ({ m with cycle := m.cycle + 1, pc := m.pc + INS_XLEN }, StepOutcome.debugPropagate)
        else
          ({ m with cycle := m.cycle + 1, pc := m.pc + INS_XLEN, debugger_active := true },
            StepOutcome.debugSuspend)
      | Except.error f =>
        ({ m with cycle := m.cycle + 1, pc := m.pc + INS_XLEN, halted := true },
          StepOutcome.fault f)

/-- Iterated stepping (the state part of repeated `step` calls). -/
def stepN : Nat → Machine → Machine
  | 0, m => m
  | n + 1, m => stepN n (step m).1

/-- Result of `UserModeCPU.setup_stack`: the final machine state, the boolean
success flag, and the ordered names of the sections whose placement was
attempted (one entry per `load_section` call the Python code makes). -/
structure SetupResult where
  machine : Machine
  ok : Bool
  attempts : List String

/-- The default stack size of `setup_stack` (`1024 * 4` bytes). -/
def DEFAULT_STACK_SIZE : Nat := 1024 * 4

/-- Embeds `UserModeCPU.setup_stack`: places a zero-filled relocatable `.stack`
section, sets the stack pointer to its highest address, then installs the
fixed 200-byte `.gpio` section at 0x60004000 and, if that succeeded, the
fixed 200-byte `.io` section at 0x60009000.  Each failed placement prints a
diagnostic and returns `False` immediately. -/
def setup_stack (m : Machine) (stack_size : Nat) : SetupResult :=
  let stack_sec : MemorySection :=
    { name := ".stack", base := 0, size := stack_size, data := List.replicate stack_size 0 }
  match load_section m.mmu stack_sec false with
  | none => { machine := m, ok := false, attempts := [".stack"] }
  | some (mmu1, b) =>
    let m1 : Machine := { setReg m "sp" ((b + stack_size) % wsize) with mmu := mmu1 }
    let gpio_sec : MemorySection :=
      { name := ".gpio", base := 0x60004000, size := 200, data := List.replicate 200 0 }
    match load_section m1.mmu gpio_sec true with
    | none => { machine := m1, ok := false, attempts := [".stack", ".gpio"] }
    | some (mmu2, _) =>
      let m2 : Machine := { m1 with mmu := mmu2 }
      let io_sec : MemorySection :=
        { name := ".io", base := 0x60009000, size := 200, data := List.replicate 200 0 }
      match load_section m2.mmu io_sec true with
      | none => { machine := m2, ok := false, attempts := [".stack", ".gpio", ".io"] }
      | some (mmu3, _) =>
        { machine := { m2 with mmu := mmu3 }, ok := true,
          attempts := [".stack", ".gpio", ".io"] }

/-- A small concrete machine used to exercise the embedding on explicit
inputs: register `t0` holds 5, the program counter is 100, the engine is
running with no debugger attached, and the configured stack size is 0 (so
the stack guard is off, since the signed stack pointer 0 is not below
`0 - 4096`). -/
def testM (prog : List (Nat × Instruction)) : Machine :=
  { regs := fun n => if n = "t0" then 5 else 0
    pc := 100, cycle := 0, halted := false, debugger_active := false
    stack_size := 0, exit_code := 0
    mmu := { sections := [], program := prog } }

/-- Machine fetching a one-operand `jalr t0` with an odd target value. -/
def jalrM : Machine := testM [(100, { name := "jalr", args := [Operand.reg "t0"] })]

/-- Machine fetching `jr t0` with an odd target value. -/
def jrM : Machine := testM [(100, { name := "jr", args := [Operand.reg "t0"] })]

/-- Machine fetching an unaligned `lw a0, 0(t0)` (effective address 5). -/
def lwM : Machine :=
  testM [(100, { name := "lw", args := [Operand.reg "a0", Operand.reg "t0", Operand.imm 0] })]

/-- Machine fetching an unaligned `lb a0, 0(t0)` (effective address 5,
outside every section). -/
def lbM : Machine :=
  testM [(100, { name := "lb", args := [Operand.reg "a0", Operand.reg "t0", Operand.imm 0] })]

/-- Machine fetching `sbreak`. -/
def sbreakM : Machine := testM [(100, { name := "sbreak", args := [] })]

/-- Machine whose stack guard fires: the signed stack pointer 0 is below
`stack_size - 4096 = 5904`. -/
def overflowM : Machine := { testM [] with stack_size := 10000 }

/-- A halted machine. -/
def haltedM : Machine := { testM [] with halted := true }

/-- Machine fetching `sll t2, t0, t1`. -/
def sllM : Machine :=
  testM [(100, { name := "sll",
                 args := [Operand.reg "t2", Operand.reg "t0", Operand.reg "t1"] })]

/-- A machine with an unrelated fixed section already occupying the `.gpio`
window at 0x60004000, so that `setup_stack` places the stack, fails on
`.gpio`, and returns before ever attempting `.io`. -/
def gpioBlockedM : Machine :=
  { testM [] with
      mmu := { sections := [{ name := "blk", base := 0x60004000, size := 8,
                              data := [0, 0, 0, 0, 0, 0, 0, 0] }],
               program := [] } }

/-! Helper lemmas about which fault classes each primitive can produce. -/

theorem get_reg_error {ins : Instruction} {i : Nat} {f : Fault}
    (h : ins.get_reg i = Except.error f) : ∃ s, f = Fault.parseEx s := by
  unfold Instruction.get_reg at h
  split at h <;> first | exact ⟨_, (Except.error.inj h).symm⟩ | cases h

theorem get_imm_error {ins : Instruction} {i : Nat} {f : Fault}
    (h : ins.get_imm i = Except.error f) : ∃ s, f = Fault.parseEx s := by
  unfold Instruction.get_imm at h
  split at h <;> first | exact ⟨_, (Except.error.inj h).symm⟩ | cases h

theorem ASSERT_LEN_error {args : List Operand} {n : Nat} {f : Fault}
    (h : ASSERT_LEN args n = Except.error f) : ∃ s, f = Fault.parseEx s := by
  unfold ASSERT_LEN at h
  split at h <;> first | exact ⟨_, (Except.error.inj h).symm⟩ | cases h

theorem ASSERT_IMM_LEN_error {val : Int} {nbits : Nat} {b : Bool} {f : Fault}
    (h : ASSERT_IMM_LEN val nbits b = Except.error f) : ∃ s, f = Fault.parseEx s := by
  unfold ASSERT_IMM_LEN at h
  repeat' split at h
  all_goals first | exact ⟨_, (Except.error.inj h).symm⟩ | cases h

theorem ASSERT_WORD_ALIGNED_error {addr : Nat} {f : Fault}
    (h : ASSERT_WORD_ALIGNED addr = Except.error f) : f = Fault.memoryAlignment addr := by
  unfold ASSERT_WORD_ALIGNED at h
  split at h <;> first | exact (Except.error.inj h).symm | cases h

theorem mmuRead_error {mmu : MMUState} {addr n : Nat} {f : Fault}
    (h : mmuRead mmu addr n = Except.error f) : f = Fault.memoryAccess "read" addr n := by
  unfold mmuRead at h
  split at h <;> first | exact (Except.error.inj h).symm | cases h

theorem mmuWrite_error {mmu : MMUState} {addr n : Nat} {bs : List Nat} {f : Fault}
    (h : mmuWrite mmu addr n bs = Except.error f) : f = Fault.memoryAccess "write" addr n := by
  unfold mmuWrite at h
  split at h <;> first | exact (Except.error.inj h).symm | cases h

theorem readIns_error {mmu : MMUState} {addr : Nat} {f : Fault}
    (h : readIns mmu addr = Except.error f) : f = Fault.memoryAccess "fetch" addr 1 := by
  unfold readIns at h
  split at h <;> first | exact (Except.error.inj h).symm | cases h

theorem parse_mem_ins_error {m : Machine} {ins : Instruction} {f : Fault}
    (h : parse_mem_ins m ins = Except.error f) : ∃ s, f = Fault.parseEx s := by
  unfold parse_mem_ins at h
  repeat' split at h
  all_goals cases h
  all_goals first
    | exact get_reg_error (by assumption)
    | exact get_imm_error (by assumption)

theorem parse_rd_rs_rs_error {m : Machine} {ins : Instruction} {f : Fault}
    (h : parse_rd_rs_rs m ins = Except.error f) : ∃ s, f = Fault.parseEx s := by
  unfold parse_rd_rs_rs at h
  repeat' split at h
  all_goals cases h
  all_goals first
    | exact get_reg_error (by assumption)
    | exact get_imm_error (by assumption)

theorem parse_rd_rs_imm_error {m : Machine} {ins : Instruction} {f : Fault}
    (h : parse_rd_rs_imm m ins = Except.error f) : ∃ s, f = Fault.parseEx s := by
  unfold parse_rd_rs_imm at h
  repeat' split at h
  all_goals cases h
  all_goals first
    | exact get_reg_error (by assumption)
    | exact get_imm_error (by assumption)

theorem parse_rs_rs_imm_error {m : Machine} {ins : Instruction} {f : Fault}
    (h : parse_rs_rs_imm m ins = Except.error f) : ∃ s, f = Fault.parseEx s := by
  unfold parse_rs_rs_imm at h
  repeat' split at h
  all_goals cases h
  all_goals first
    | exact get_reg_error (by assumption)
    | exact get_imm_error (by assumption)

theorem get_reg_ne_so {ins : Instruction} {i : Nat} :
    ins.get_reg i ≠ Except.error Fault.stackOverflow := by
  intro h
  rcases get_reg_error h with ⟨s, hs⟩
  cases hs

theorem get_imm_ne_so {ins : Instruction} {i : Nat} :
    ins.get_imm i ≠ Except.error Fault.stackOverflow := by
  intro h
  rcases get_imm_error h with ⟨s, hs⟩
  cases hs

theorem ASSERT_LEN_ne_so {args : List Operand} {n : Nat} :
    ASSERT_LEN args n ≠ Except.error Fault.stackOverflow := by
  intro h
  rcases ASSERT_LEN_error h with ⟨s, hs⟩
  cases hs

theorem ASSERT_IMM_LEN_ne_so {val : Int} {nbits : Nat} {b : Bool} :
    ASSERT_IMM_LEN val nbits b ≠ Except.error Fault.stackOverflow := by
  intro h
  rcases ASSERT_IMM_LEN_error h with ⟨s, hs⟩
  cases hs

theorem ASSERT_WORD_ALIGNED_ne_so {addr : Nat} :
    ASSERT_WORD_ALIGNED addr ≠ Except.error Fault.stackOverflow := by
  intro h
  cases ASSERT_WORD_ALIGNED_error h

theorem mmuRead_ne_so {mmu : MMUState} {addr n : Nat} :
    mmuRead mmu addr n ≠ Except.error Fault.stackOverflow := by
  intro h
  cases mmuRead_error h

theorem mmuWrite_ne_so {mmu : MMUState} {addr n : Nat} {bs : List Nat} :
    mmuWrite mmu addr n bs ≠ Except.error Fault.stackOverflow := by
  intro h
  cases mmuWrite_error h

theorem parse_mem_ins_ne_so {m : Machine} {ins : Instruction} :
    parse_mem_ins m ins ≠ Except.error Fault.stackOverflow := by
  intro h
  rcases parse_mem_ins_error h with ⟨s, hs⟩
  cases hs

theorem parse_rd_rs_rs_ne_so {m : Machine} {ins : Instruction} :
    parse_rd_rs_rs m ins ≠ Except.error Fault.stackOverflow := by
  intro h
  rcases parse_rd_rs_rs_error h with ⟨s, hs⟩
  cases hs

theorem parse_rd_rs_imm_ne_so {m : Machine} {ins : Instruction} :
    parse_rd_rs_imm m ins ≠ Except.error Fault.stackOverflow := by
  intro h
  rcases parse_rd_rs_imm_error h with ⟨s, hs⟩
  cases hs

theorem parse_rs_rs_imm_ne_so {m : Machine} {ins : Instruction} :
    parse_rs_rs_imm m ins ≠ Except.error Fault.stackOverflow := by
  intro h
  rcases parse_rs_rs_imm_error h with ⟨s, hs⟩
  cases hs

set_option maxHeartbeats 1600000 in
/-- No instruction handler ever raises the stack-overflow fault: the guard in
`UserModeCPU.step` is the only source of `StackOverflowException`. -/
theorem run_instruction_ne_so (m : Machine) (ins : Instruction) :
    run_instruction m ins ≠ Except.error Fault.stackOverflow := by
  intro h
  unfold run_instruction at h
  split at h
  all_goals
    try simp only [instruction_lb, instruction_lh, instruction_lw, instruction_lbu,
      instruction_lhu, instruction_sb, instruction_sh, instruction_sw, instruction_sll,
      instruction_slli, instruction_srl, instruction_srli, instruction_sra, instruction_srai,
      instruction_add, instruction_addi, instruction_sub, instruction_lui, instruction_auipc,
      instruction_xor, instruction_xori, instruction_or, instruction_ori, instruction_and,
      instruction_andi, instruction_slt, instruction_slti, instruction_sltu, instruction_sltiu,
      instruction_beq, instruction_bne, instruction_blt, instruction_bge, instruction_bltu,
      instruction_bgeu, instruction_j, instruction_jal, instruction_beqz, instruction_bnez,
      instruction_bltz, instruction_bgtz, instruction_bgez, instruction_blez, instruction_bgt,
      instruction_ble, instruction_bgtu, instruction_bleu, instruction_call, instruction_jr,
      instruction_jalr, instruction_ret, instruction_ecall, instruction_ebreak,
      instruction_scall, instruction_sbreak, instruction_nop, instruction_li, instruction_la,
      instruction_mv, instruction_neg, instruction_not, instruction_startlog,
      instruction_stoplog, instruction_csbreak] at h
  all_goals repeat' split at h
  all_goals cases h
  all_goals first
    | exact get_reg_ne_so (by assumption)
    | exact get_imm_ne_so (by assumption)
    | exact ASSERT_LEN_ne_so (by assumption)
    | exact ASSERT_IMM_LEN_ne_so (by assumption)
    | exact ASSERT_WORD_ALIGNED_ne_so (by assumption)
    | exact mmuRead_ne_so (by assumption)
    | exact mmuWrite_ne_so (by assumption)
    | exact parse_mem_ins_ne_so (by assumption)
    | exact parse_rd_rs_rs_ne_so (by assumption)
    | exact parse_rd_rs_imm_ne_so (by assumption)
    | exact parse_rs_rs_imm_ne_so (by assumption)

/-- Any step whose outcome is a (non-debug) fault leaves the engine halted. -/
theorem step_fault_halts {m m' : Machine} {f : Fault}
    (h : step m = (m', StepOutcome.fault f)) : m'.halted = true := by
  unfold step at h
  repeat' split at h
  all_goals injection h with h1 h2
  all_goals first | (subst h1; rfl) | cases h2

/-- C4: every fault class except the debug trap is terminal.  A step whose
outcome is a fault leaves the engine halted, and once halted every further
step is a no-op returning the state unchanged (registers, memory, program
counter and cycle counter included), for any number of iterations. -/
theorem C4_faults_terminal (m : Machine) (f : Fault) :
    ((step m).2 = StepOutcome.fault f → (step m).1.halted = true) ∧
    (m.halted = true → step m = (m, StepOutcome.noOp) ∧ ∀ n, stepN n m = m) := by
  constructor
  · intro h
    have hp : step m = ((step m).1, (step m).2) := rfl
    rw [h] at hp
    exact step_fault_halts hp
  · intro hh
    have hstep : step m = (m, StepOutcome.noOp) := by
      unfold step
      simp [hh]
    refine ⟨hstep, ?_⟩
    intro n
    induction n with
    | zero => rfl
    | succ k ih =>
      show stepN k (step m).1 = m
      rw [hstep]
      exact ih

/-- Witness for C4 at concrete machines: a faulting step ends halted, and a
halted machine is a fixed point of stepping. -/
theorem C4_witness :
    (step overflowM).1.halted = true ∧
    step haltedM = (haltedM, StepOutcome.noOp) ∧ stepN 3 haltedM = haltedM :=
  ⟨(C4_faults_terminal overflowM Fault.stackOverflow).1 (by decide),
   ((C4_faults_terminal haltedM Fault.stackOverflow).2 rfl).1,
   ((C4_faults_terminal haltedM Fault.stackOverflow).2 rfl).2 3⟩

/-- C2: on a non-halted machine, if the signed stack pointer is below
`stack_size - 4096` the step raises the stack-overflow fault and halts with
the state otherwise untouched (in particular the cycle counter is not
incremented and no instruction is fetched or executed, since both happen
after the guard); if the stack pointer is at or above the bound, the step
never produces a stack-overflow fault. -/
theorem C2_stack_guard (m : Machine) (h1 : m.halted = false) :
    (toSigned (Regs.get m.regs "sp") < m.stack_size - 4096 →
      step m = ({ m with halted := true }, StepOutcome.fault Fault.stackOverflow)) ∧
    (¬ toSigned (Regs.get m.regs "sp") < m.stack_size - 4096 →
      (step m).2 ≠ StepOutcome.fault Fault.stackOverflow) := by
  constructor
  · intro hg
    unfold step
    simp [h1, hg]
  · intro hg hcon
    unfold step at hcon
    simp only [h1, Bool.false_eq_true, if_false, hg, ite_false] at hcon
    repeat' split at hcon
    all_goals cases hcon
    all_goals first
      | cases (readIns_error (by assumption))
      | exact run_instruction_ne_so _ _ (by assumption)

/-- Witness for C2: the guard fires on `overflowM` (signed sp 0 below
10000 - 4096) and does not fire on the base test machine (stack size 0). -/
theorem C2_witness :
    step overflowM = ({ overflowM with halted := true }, StepOutcome.fault Fault.stackOverflow) ∧
    (step (testM [])).2 ≠ StepOutcome.fault Fault.stackOverflow :=
  ⟨(C2_stack_guard overflowM rfl).1 (by decide),
   (C2_stack_guard (testM []) rfl).2 (by decide)⟩

/-- C6: each pseudo-branch has exactly the effect of its canonical
counterpart with the two register operands swapped, on every machine state
and every operand triple: `bgt x,y,t` equals `blt y,x,t`, `ble` equals
`bge` swapped, `bgtu` equals `bltu` swapped, and `bleu` equals `bgeu`
swapped (full machine-state equality, hence the same program counter). -/
theorem C6_pseudo_branch_equivalence (m : Machine) (x y : String) (t : Int) :
    instruction_bgt m { name := "bgt", args := [Operand.reg x, Operand.reg y, Operand.imm t] }
      = instruction_blt m { name := "blt", args := [Operand.reg y, Operand.reg x, Operand.imm t] } ∧
    instruction_ble m { name := "ble", args := [Operand.reg x, Operand.reg y, Operand.imm t] }
      = instruction_bge m { name := "bge", args := [Operand.reg y, Operand.reg x, Operand.imm t] } ∧
    instruction_bgtu m { name := "bgtu", args := [Operand.reg x, Operand.reg y, Operand.imm t] }
      = instruction_bltu m { name := "bltu", args := [Operand.reg y, Operand.reg x, Operand.imm t] } ∧
    instruction_bleu m { name := "bleu", args := [Operand.reg x, Operand.reg y, Operand.imm t] }
      = instruction_bgeu m { name := "bgeu", args := [Operand.reg y, Operand.reg x, Operand.imm t] } := by
  refine ⟨?_, ?_, ?_, ?_⟩ <;>
    simp [instruction_bgt, instruction_blt, instruction_ble, instruction_bge,
      instruction_bgtu, instruction_bltu, instruction_bleu, instruction_bgeu,
      ASSERT_LEN, parse_rs_rs_imm, Instruction.get_reg, Instruction.get_imm,
      gt_iff_lt, ge_iff_le]

/-- C1 fails on the code: executing a one-operand `jalr` through a register
holding the odd value 5 sets the program counter to 5 itself, not to
5 AND 0xFFFFFFFE = 4 — the low bit is not cleared. -/
theorem C1_counterexample :
    (step jalrM).1.pc = Regs.get jalrM.regs "t0" ∧
    (step jalrM).1.pc ≠ Regs.get jalrM.regs "t0" &&& 4294967294 := by
  decide

/-- C1 amended: `jr` clears the low bit of the register value before setting
the program counter, but `jalr` does not clear it in either form (the target
is the plain register value, or base plus offset, low bit preserved); the
link-register forms save the program counter after its fixed-width
increment. -/
theorem C1_jump_lowbit_amended (m : Machine) (r rd rs : String) (off : Int)
    (h1 : m.halted = false)
    (h2 : ¬ toSigned (Regs.get m.regs "sp") < m.stack_size - 4096) :
    (readIns m.mmu m.pc = Except.ok { name := "jr", args := [Operand.reg r] } →
      step m = ({ m with
                  cycle := m.cycle + 1
                  pc := Regs.get m.regs r &&& 4294967294 }, StepOutcome.ok)) ∧
    (readIns m.mmu m.pc = Except.ok { name := "jalr", args := [Operand.reg r] } →
      step m = ({ m with
                  cycle := m.cycle + 1
                  regs := Regs.set m.regs "ra" ((m.pc + INS_XLEN) % wsize)
                  pc := Regs.get m.regs r }, StepOutcome.ok)) ∧
    (readIns m.mmu m.pc
        = Except.ok { name := "jalr",
                      args := [Operand.reg rd, Operand.reg rs, Operand.imm off] } →
      step m = ({ m with
                  cycle := m.cycle + 1
                  regs := Regs.set m.regs rd ((m.pc + INS_XLEN) % wsize)
                  pc := ofInt ((Regs.get m.regs rs : Int) + off) }, StepOutcome.ok)) := by
  refine ⟨?_, ?_, ?_⟩ <;> intro hf <;>
    simp [step, h1, h2, hf, run_instruction, instruction_jr, instruction_jalr,
      ASSERT_LEN, parse_mem_ins, Instruction.get_reg, Instruction.get_imm,
      setReg, INS_XLEN]

/-- Witness for C1 at the concrete machines: `jr t0` (t0 = 5) jumps to 4
with the low bit cleared, while `jalr t0` jumps to 5 and stores 101 (the
incremented program counter) into `ra`. -/
theorem C1_witness :
    step jrM = ({ jrM with cycle := 1, pc := 4 }, StepOutcome.ok) ∧
    step jalrM = ({ jalrM with
                    cycle := 1
                    regs := Regs.set jalrM.regs "ra" 101
                    pc := 5 }, StepOutcome.ok) :=
  ⟨(C1_jump_lowbit_amended jrM "t0" "a" "a" 0 rfl (by decide)).1 rfl,
   (C1_jump_lowbit_amended jalrM "t0" "a" "a" 0 rfl (by decide)).2.1 rfl⟩

/-- The byte-load handler can only raise parse or memory-access faults,
never an alignment fault. -/
theorem instruction_lb_ne_align {m : Machine} {ins : Instruction} {a : Nat} :
    instruction_lb m ins ≠ Except.error (Fault.memoryAlignment a) := by
  intro h
  unfold instruction_lb at h
  repeat' split at h
  all_goals cases h
  all_goals first
    | (rcases parse_mem_ins_error (by assumption) with ⟨s, hs⟩; cases hs)
    | cases (mmuRead_error (by assumption))

/-- The unsigned byte-load handler never raises an alignment fault. -/
theorem instruction_lbu_ne_align {m : Machine} {ins : Instruction} {a : Nat} :
    instruction_lbu m ins ≠ Except.error (Fault.memoryAlignment a) := by
  intro h
  unfold instruction_lbu at h
  repeat' split at h
  all_goals cases h
  all_goals first
    | (rcases parse_mem_ins_error (by assumption) with ⟨s, hs⟩; cases hs)
    | cases (mmuRead_error (by assumption))

/-- The byte-store handler never raises an alignment fault. -/
theorem instruction_sb_ne_align {m : Machine} {ins : Instruction} {a : Nat} :
    instruction_sb m ins ≠ Except.error (Fault.memoryAlignment a) := by
  intro h
  unfold instruction_sb at h
  repeat' split at h
  all_goals cases h
  all_goals first
    | (rcases parse_mem_ins_error (by assumption) with ⟨s, hs⟩; cases hs)
    | cases (mmuWrite_error (by assumption))

/-- C3: executing `lw` or `sw` whose effective address (base register plus
immediate offset) is not a multiple of 4 raises the memory-alignment fault
carrying that address and halts the engine, while `lb`, `lbu` and `sb`
never produce an alignment fault, whatever their operands or effective
address. -/
theorem C3_alignment_faults (m : Machine) (rd rs : String) (off : Int) (a : Nat)
    (h1 : m.halted = false)
    (h2 : ¬ toSigned (Regs.get m.regs "sp") < m.stack_size - 4096) :
    (readIns m.mmu m.pc
        = Except.ok { name := "lw", args := [Operand.reg rd, Operand.reg rs, Operand.imm off] } →
      ofInt ((Regs.get m.regs rs : Int) + off) % 4 ≠ 0 →
      step m = ({ m with
                  cycle := m.cycle + 1
                  pc := m.pc + INS_XLEN
                  halted := true },
        StepOutcome.fault (Fault.memoryAlignment (ofInt ((Regs.get m.regs rs : Int) + off))))) ∧
    (readIns m.mmu m.pc
        = Except.ok { name := "sw", args := [Operand.reg rd, Operand.reg rs, Operand.imm off] } →
      ofInt ((Regs.get m.regs rs : Int) + off) % 4 ≠ 0 →
      step m = ({ m with
                  cycle := m.cycle + 1
                  pc := m.pc + INS_XLEN
                  halted := true },
        StepOutcome.fault (Fault.memoryAlignment (ofInt ((Regs.get m.regs rs : Int) + off))))) ∧
    (∀ args, readIns m.mmu m.pc = Except.ok { name := "lb", args := args } →
      (step m).2 ≠ StepOutcome.fault (Fault.memoryAlignment a)) ∧
    (∀ args, readIns m.mmu m.pc = Except.ok { name := "lbu", args := args } →
      (step m).2 ≠ StepOutcome.fault (Fault.memoryAlignment a)) ∧
    (∀ args, readIns m.mmu m.pc = Except.ok { name := "sb", args := args } →
      (step m).2 ≠ StepOutcome.fault (Fault.memoryAlignment a)) := by
  refine ⟨?_, ?_, ?_, ?_, ?_⟩
  · intro hf hal
    simp [step, hf, h1, h2, run_instruction, instruction_lw, ASSERT_LEN, parse_mem_ins,
      Instruction.get_reg, Instruction.get_imm, ASSERT_WORD_ALIGNED, hal]
  · intro hf hal
    simp [step, hf, h1, h2, run_instruction, instruction_sw, ASSERT_LEN, parse_mem_ins,
      Instruction.get_reg, Instruction.get_imm, ASSERT_WORD_ALIGNED, hal]
  · intro args hf hcon
    unfold step at hcon
    simp only [h1, Bool.false_eq_true, if_false, h2, ite_false, hf, run_instruction] at hcon
    repeat' split at hcon
    all_goals cases hcon
    all_goals exact instruction_lb_ne_align (by assumption)
  · intro args hf hcon
    unfold step at hcon
    simp only [h1, Bool.false_eq_true, if_false, h2, ite_false, hf, run_instruction] at hcon
    repeat' split at hcon
    all_goals cases hcon
    all_goals exact instruction_lbu_ne_align (by assumption)
  · intro args hf hcon
    unfold step at hcon
    simp only [h1, Bool.false_eq_true, if_false, h2, ite_false, hf, run_instruction] at hcon
    repeat' split at hcon
    all_goals cases hcon
    all_goals exact instruction_sb_ne_align (by assumption)

/-- Witness for C3: the unaligned `lw` halts with the alignment fault for
address 5, and the unaligned `lb` at the same address-out-of-range spot
does not produce an alignment fault. -/
theorem C3_witness :
    step lwM = ({ lwM with cycle := 1, pc := 101, halted := true },
      StepOutcome.fault (Fault.memoryAlignment 5)) ∧
    (step lbM).2 ≠ StepOutcome.fault (Fault.memoryAlignment 5) :=
  ⟨(C3_alignment_faults lwM "a0" "t0" 0 5 rfl (by decide)).1 rfl (by decide),
   (C3_alignment_faults lbM "a0" "t0" 0 5 rfl (by decide)).2.2.1
     [Operand.reg "a0", Operand.reg "t0", Operand.imm 0] rfl⟩

set_option maxHeartbeats 1600000 in
/-- C7: executing `sbreak` (or its alias `ebreak`) with no debugger attached
suspends into the debugger — the engine is not halted and the debug trap is
not treated as a fault; executing it while a debugger is already attached
propagates the debug-trap signal out of `step` instead of re-suspending. -/
theorem C7_sbreak_debug (m : Machine) (n : String)
    (h1 : m.halted = false)
    (h2 : ¬ toSigned (Regs.get m.regs "sp") < m.stack_size - 4096)
    (h3 : n = "sbreak" ∨ n = "ebreak")
    (hf : readIns m.mmu m.pc = Except.ok { name := n, args := [] }) :
    (m.debugger_active = false →
      step m = ({ m with
                  cycle := m.cycle + 1
                  pc := m.pc + INS_XLEN
                  debugger_active := true }, StepOutcome.debugSuspend)) ∧
    (m.debugger_active = true →
      step m = ({ m with
                  cycle := m.cycle + 1
                  pc := m.pc + INS_XLEN }, StepOutcome.debugPropagate)) := by
  rcases h3 with h3 | h3 <;> subst h3 <;>
    constructor <;> intro hd <;>
      simp [step, h1, h2, hf, run_instruction, instruction_sbreak, instruction_ebreak,
        ASSERT_LEN, hd]

/-- Witness for C7: two back-to-back `sbreak` executions — the first
suspends and attaches the debugger, the second propagates. -/
theorem C7_witness :
    step sbreakM = ({ sbreakM with
                      cycle := 1
                      pc := 101
                      debugger_active := true }, StepOutcome.debugSuspend) ∧
    step { sbreakM with debugger_active := true }
      = ({ sbreakM with cycle := 1, pc := 101, debugger_active := true },
          StepOutcome.debugPropagate) :=
  ⟨(C7_sbreak_debug sbreakM "sbreak" rfl (by decide) (Or.inl rfl) rfl).1 rfl,
   (C7_sbreak_debug { sbreakM with debugger_active := true } "sbreak" rfl (by decide)
      (Or.inl rfl) rfl).2 rfl⟩

/-- C10: a faulting step is not atomic.  When the fetch succeeds and the
handler raises a non-debug fault, the engine halts with the cycle counter
incremented by one and the program counter left at the faulting
instruction's address plus the fixed instruction width — the pre-step
program counter is not restored, and the state the handler produced is kept
as is. -/
theorem C10_fault_not_atomic (m : Machine) (ins : Instruction) (f : Fault)
    (h1 : m.halted = false)
    (h2 : ¬ toSigned (Regs.get m.regs "sp") < m.stack_size - 4096)
    (hf : readIns m.mmu m.pc = Except.ok ins)
    (hr : run_instruction { m with cycle := m.cycle + 1, pc := m.pc + INS_XLEN } ins
        = Except.error f)
    (hd : f ≠ Fault.launchDebugger) :
    step m = ({ m with
                cycle := m.cycle + 1
                pc := m.pc + INS_XLEN
                halted := true }, StepOutcome.fault f) := by
  rw [h1] at hr
  cases f <;> first
    | exact absurd rfl hd
    | simp [step, h1, h2, hf, hr]

/-- Witness for C10: the unaligned `lw` step ends halted with cycle 1 and
the program counter advanced past the faulting instruction (101 = 100 + 1),
not restored to 100. -/
theorem C10_witness :
    step lwM = ({ lwM with cycle := 1, pc := 101, halted := true },
      StepOutcome.fault (Fault.memoryAlignment 5)) :=
  C10_fault_not_atomic lwM
    { name := "lw", args := [Operand.reg "a0", Operand.reg "t0", Operand.imm 0] }
    (Fault.memoryAlignment 5) rfl (by decide) rfl rfl (by decide)

/-- Masking a natural number to its low 5 bits is reduction modulo 32. -/
theorem nat_and_31_eq_mod (n : Nat) : n &&& 31 = n % 32 :=
  Nat.and_pow_two_sub_one_eq_mod n 5

/-- Reducing modulo 32 twice is the same as once (naturals). -/
theorem mod32_mod32 (n : Nat) : n % 32 % 32 = n % 32 :=
  Nat.mod_mod_of_dvd n dvd_rfl

/-- Reducing modulo 32 twice is the same as once (integers). -/
theorem int_emod32_emod32 (t : Int) : t % 32 % 32 = t % 32 :=
  Int.emod_emod_of_dvd t dvd_rfl

/-- Writing the zero register is discarded. -/
theorem Regs_set_zero (r : Regs) (v : Nat) : Regs.set r "zero" v = r := by
  simp [Regs.set]

/-- Reading the register just written returns the written value, except for
the hard-wired zero register. -/
theorem Regs_get_set_self (r : Regs) (n : String) (v : Nat) :
    Regs.get (Regs.set r n v) n = if n = "zero" then 0 else v := by
  by_cases h : n = "zero" <;> simp [Regs.get, Regs.set, h]

/-- Reading a register other than the one just written is unchanged. -/
theorem Regs_get_set_other (r : Regs) (n n' : String) (v : Nat) (h : n' ≠ n) :
    Regs.get (Regs.set r n v) n' = Regs.get r n' := by
  by_cases hz : n = "zero" <;> by_cases hz' : n' = "zero" <;>
    simp [Regs.get, Regs.set, hz, hz', h]

/-- C5: every shift instruction reduces its shift amount modulo 32 before
shifting.  For the register forms (`sll`, `srl`, `sra`), a source machine
whose shift-amount register holds `s` produces the same destination value as
one whose shift-amount register holds `s % 32`; for the immediate forms
(`slli`, `srli`, `srai`), the instruction with immediate `t` is
indistinguishable from the instruction with immediate `t % 32`. -/
theorem C5_shift_amount_masking (m : Machine) (d r1 r2 : String) (s : Nat) (t : Int)
    (h : r1 ≠ r2) :
    (instruction_sll { m with regs := Regs.set m.regs r2 s }
        { name := "sll", args := [Operand.reg d, Operand.reg r1, Operand.reg r2] }).map
        (fun st => Regs.get st.regs d)
      = (instruction_sll { m with regs := Regs.set m.regs r2 (s % 32) }
        { name := "sll", args := [Operand.reg d, Operand.reg r1, Operand.reg r2] }).map
        (fun st => Regs.get st.regs d) ∧
    (instruction_srl { m with regs := Regs.set m.regs r2 s }
        { name := "srl", args := [Operand.reg d, Operand.reg r1, Operand.reg r2] }).map
        (fun st => Regs.get st.regs d)
      = (instruction_srl { m with regs := Regs.set m.regs r2 (s % 32) }
        { name := "srl", args := [Operand.reg d, Operand.reg r1, Operand.reg r2] }).map
        (fun st => Regs.get st.regs d) ∧
    (instruction_sra { m with regs := Regs.set m.regs r2 s }
        { name := "sra", args := [Operand.reg d, Operand.reg r1, Operand.reg r2] }).map
        (fun st => Regs.get st.regs d)
      = (instruction_sra { m with regs := Regs.set m.regs r2 (s % 32) }
        { name := "sra", args := [Operand.reg d, Operand.reg r1, Operand.reg r2] }).map
        (fun st => Regs.get st.regs d) ∧
    instruction_slli m
        { name := "slli", args := [Operand.reg d, Operand.reg r1, Operand.imm t] }
      = instruction_slli m
        { name := "slli", args := [Operand.reg d, Operand.reg r1, Operand.imm (t % 32)] } ∧
    instruction_srli m
        { name := "srli", args := [Operand.reg d, Operand.reg r1, Operand.imm t] }
      = instruction_srli m
        { name := "srli", args := [Operand.reg d, Operand.reg r1, Operand.imm (t % 32)] } ∧
    instruction_srai m
        { name := "srai", args := [Operand.reg d, Operand.reg r1, Operand.imm t] }
      = instruction_srai m
        { name := "srai", args := [Operand.reg d, Operand.reg r1, Operand.imm (t % 32)] } := by
  refine ⟨?_, ?_, ?_, ?_, ?_, ?_⟩
  all_goals
    first
      | (by_cases hz : r2 = "zero" <;>
          simp [instruction_sll, instruction_srl, instruction_sra, ASSERT_LEN,
            Instruction.get_reg, setReg, Except.map, Regs_set_zero, Regs_get_set_self,
            Regs_get_set_other, h, hz, nat_and_31_eq_mod, mod32_mod32])
      | simp [instruction_slli, instruction_srli, instruction_srai, ASSERT_LEN,
          Instruction.get_reg, Instruction.get_imm, setReg, int_emod32_emod32]

/-- Witness for C5: shifting by 33 equals shifting by 1 on a concrete
machine, for `sll` and for `slli`. -/
theorem C5_witness :
    (instruction_sll { testM [] with regs := Regs.set (testM []).regs "t1" 33 }
        { name := "sll", args := [Operand.reg "t2", Operand.reg "t0", Operand.reg "t1"] }).map
        (fun st => Regs.get st.regs "t2")
      = (instruction_sll { testM [] with regs := Regs.set (testM []).regs "t1" (33 % 32) }
        { name := "sll", args := [Operand.reg "t2", Operand.reg "t0", Operand.reg "t1"] }).map
        (fun st => Regs.get st.regs "t2") ∧
    instruction_slli (testM [])
        { name := "slli", args := [Operand.reg "t2", Operand.reg "t0", Operand.imm 33] }
      = instruction_slli (testM [])
        { name := "slli", args := [Operand.reg "t2", Operand.reg "t0", Operand.imm (33 % 32)] } :=
  ⟨(C5_shift_amount_masking (testM []) "t2" "t0" "t1" 33 33 (by decide)).1,
   (C5_shift_amount_masking (testM []) "t2" "t0" "t1" 33 33 (by decide)).2.2.2.1⟩

/-- Placing a section never removes an existing one. -/
theorem load_section_mem {mmu : MMUState} {sec : MemorySection} {fp : Bool}
    {mmu' : MMUState} {b : Nat} {x : MemorySection}
    (h : load_section mmu sec fp = some (mmu', b)) (hx : x ∈ mmu.sections) :
    x ∈ mmu'.sections := by
  unfold load_section at h
  repeat' split at h
  all_goals cases h
  all_goals exact List.mem_append_left _ hx

/-- A successful relocatable placement assigns the next free address above
all existing sections and appends the section with that base. -/
theorem load_section_reloc {mmu : MMUState} {sec : MemorySection}
    {mmu' : MMUState} {b : Nat}
    (h : load_section mmu sec false = some (mmu', b)) :
    b = nextFreeAddress mmu.sections ∧ { sec with base := b } ∈ mmu'.sections := by
  unfold load_section at h
  repeat' split at h
  all_goals cases h
  all_goals first
    | exact ⟨rfl, List.mem_append_right _ (List.mem_singleton_self _)⟩
    | simp_all

/-- A successful fixed placement appends the section itself. -/
theorem load_section_fixed_self {mmu : MMUState} {sec : MemorySection}
    {mmu' : MMUState} {b : Nat}
    (h : load_section mmu sec true = some (mmu', b)) : sec ∈ mmu'.sections := by
  unfold load_section at h
  repeat' split at h
  all_goals cases h
  all_goals first
    | exact List.mem_append_right _ (List.mem_singleton_self _)
    | simp_all

/-- C8: when `setup_stack` succeeds with stack size 4096 (which is also the
default size, `1024 * 4`), the address space contains the zero-filled
relocatable `.stack` section placed at the next free address, and the stack
pointer equals that base address plus 4096 (the section's highest address,
wrapped to a word as `Int32` does). -/
theorem C8_setup_stack_sp (m : Machine) (h : (setup_stack m 4096).ok = true) :
    ({ name := ".stack", base := nextFreeAddress m.mmu.sections, size := 4096,
       data := List.replicate 4096 0 } : MemorySection)
      ∈ (setup_stack m 4096).machine.mmu.sections ∧
    Regs.get (setup_stack m 4096).machine.regs "sp"
      = (nextFreeAddress m.mmu.sections + 4096) % wsize ∧
    DEFAULT_STACK_SIZE = 4096 := by
  cases hs1 : load_section m.mmu
      { name := ".stack", base := 0, size := 4096, data := List.replicate 4096 0 } false with
  | none =>
    simp only [setup_stack, hs1] at h
    exact Bool.noConfusion h
  | some p =>
    obtain ⟨mmu1, b⟩ := p
    obtain ⟨hb, hmem⟩ := load_section_reloc hs1
    subst hb
    cases hs2 : load_section mmu1
        { name := ".gpio", base := 0x60004000, size := 200, data := List.replicate 200 0 }
        true with
    | none =>
      simp only [setup_stack, hs1, hs2] at h
      exact Bool.noConfusion h
    | some q =>
      obtain ⟨mmu2, c⟩ := q
      cases hs3 : load_section mmu2
          { name := ".io", base := 0x60009000, size := 200, data := List.replicate 200 0 }
          true with
      | none =>
        simp only [setup_stack, hs1, hs2, hs3] at h
        exact Bool.noConfusion h
      | some r' =>
        obtain ⟨mmu3, e⟩ := r'
        have hres : setup_stack m 4096
            = { machine := { setReg m "sp"
                  ((nextFreeAddress m.mmu.sections + 4096) % wsize) with mmu := mmu3 },
                ok := true, attempts := [".stack", ".gpio", ".io"] } := by
          simp only [setup_stack, hs1, hs2, hs3]
        rw [hres]
        refine ⟨?_, ?_, rfl⟩
        · exact load_section_mem hs3 (load_section_mem hs2 hmem)
        · simp [setReg, Regs.get, Regs.set]

/-- Witness for C8 on the empty machine: the stack lands at base 0 and the
stack pointer is 4096. -/
theorem C8_witness :
    ({ name := ".stack", base := nextFreeAddress (testM []).mmu.sections, size := 4096,
       data := List.replicate 4096 0 } : MemorySection)
      ∈ (setup_stack (testM []) 4096).machine.mmu.sections ∧
    Regs.get (setup_stack (testM []) 4096).machine.regs "sp"
      = (nextFreeAddress (testM []).mmu.sections + 4096) % wsize ∧
    DEFAULT_STACK_SIZE = 4096 :=
  C8_setup_stack_sp (testM []) rfl

/-- C9 fails on the code: on a machine with an unrelated section already
occupying the `.gpio` window, `setup_stack` places the stack, fails the
`.gpio` placement and returns `False` without ever attempting `.io` — only
two placements are attempted after the stack, not the claimed two
fixed-position installs — even though the `.io` placement itself would have
succeeded. -/
theorem C9_counterexample :
    (setup_stack gpioBlockedM 4096).ok = false ∧
    (setup_stack gpioBlockedM 4096).attempts = [".stack", ".gpio"] ∧
    (load_section (setup_stack gpioBlockedM 4096).machine.mmu
        { name := ".io", base := 0x60009000, size := 200, data := List.replicate 200 0 }
        true).isSome = true :=
  ⟨rfl, rfl, rfl⟩

/-- C9 amended: after placing the stack section, `setup_stack` attempts the
fixed 200-byte `.gpio` section at 0x60004000, and attempts the fixed
200-byte `.io` section at 0x60009000 only if the `.gpio` placement
succeeded; it returns `False` (without raising) as soon as any of the three
placements fails, and `True` exactly when all three were attempted and
succeeded, in which case both peripheral sections are present in the
address space. -/
theorem C9_setup_attempts_amended (m : Machine) (sz : Nat) :
    ((setup_stack m sz).ok = true →
      (setup_stack m sz).attempts = [".stack", ".gpio", ".io"] ∧
      ({ name := ".gpio", base := 0x60004000, size := 200,
         data := List.replicate 200 0 } : MemorySection)
        ∈ (setup_stack m sz).machine.mmu.sections ∧
      ({ name := ".io", base := 0x60009000, size := 200,
         data := List.replicate 200 0 } : MemorySection)
        ∈ (setup_stack m sz).machine.mmu.sections) ∧
    ((setup_stack m sz).attempts = [".stack"] ∨
      (setup_stack m sz).attempts = [".stack", ".gpio"] ∨
      (setup_stack m sz).attempts = [".stack", ".gpio", ".io"]) ∧
    ((setup_stack m sz).attempts ≠ [".stack", ".gpio", ".io"] →
      (setup_stack m sz).ok = false) := by
  cases hs1 : load_section m.mmu
      { name := ".stack", base := 0, size := sz, data := List.replicate sz 0 } false with
  | none =>
    have hres : setup_stack m sz = { machine := m, ok := false, attempts := [".stack"] } := by
      simp only [setup_stack, hs1]
    rw [hres]
    refine ⟨?_, Or.inl rfl, ?_⟩
    · intro hcon
      exact Bool.noConfusion hcon
    · intro _
      rfl
  | some p =>
    obtain ⟨mmu1, b⟩ := p
    cases hs2 : load_section mmu1
        { name := ".gpio", base := 0x60004000, size := 200, data := List.replicate 200 0 }
        true with
    | none =>
      have hres : setup_stack m sz
          = { machine := { setReg m "sp" ((b + sz) % wsize) with mmu := mmu1 },
              ok := false, attempts := [".stack", ".gpio"] } := by
        simp only [setup_stack, hs1, hs2]
      rw [hres]
      refine ⟨?_, Or.inr (Or.inl rfl), ?_⟩
      · intro hcon
        exact Bool.noConfusion hcon
      · intro _
        rfl
    | some q =>
      obtain ⟨mmu2, c⟩ := q
      cases hs3 : load_section mmu2
          { name := ".io", base := 0x60009000, size := 200, data := List.replicate 200 0 }
          true with
      | none =>
        have hres : setup_stack m sz
            = { machine := { setReg m "sp" ((b + sz) % wsize) with mmu := mmu2 },
                ok := false, attempts := [".stack", ".gpio", ".io"] } := by
          simp only [setup_stack, hs1, hs2, hs3]
        rw [hres]
        refine ⟨?_, Or.inr (Or.inr rfl), ?_⟩
        · intro hcon
          exact Bool.noConfusion hcon
        · intro hne
          rfl
      | some r' =>
        obtain ⟨mmu3, e⟩ := r'
        have hres : setup_stack m sz
            = { machine := { setReg m "sp" ((b + sz) % wsize) with mmu := mmu3 },
                ok := true, attempts := [".stack", ".gpio", ".io"] } := by
          simp only [setup_stack, hs1, hs2, hs3]
        rw [hres]
        refine ⟨?_, Or.inr (Or.inr rfl), ?_⟩
        · intro _
          exact ⟨rfl, load_section_mem hs3 (load_section_fixed_self hs2),
            load_section_fixed_self hs3⟩
        · intro hne
          exact absurd rfl hne

/-- Witness for C9 on the empty machine: all three placements are attempted
and succeed, and both peripheral sections are present. -/
theorem C9_witness :
    (setup_stack (testM []) 4096).attempts = [".stack", ".gpio", ".io"] ∧
    ({ name := ".gpio", base := 0x60004000, size := 200,
       data := List.replicate 200 0 } : MemorySection)
      ∈ (setup_stack (testM []) 4096).machine.mmu.sections ∧
    ({ name := ".io", base := 0x60009000, size := 200,
       data := List.replicate 200 0 } : MemorySection)
      ∈ (setup_stack (testM []) 4096).machine.mmu.sections :=
  (C9_setup_attempts_amended (testM []) 4096).1 rfl

end Riscemu
